import Mathlib

/-! Shallow embedding of the connection-pool and client core of a MongoDB
    driver (pymongo/pool.py and pymongo/mongo_client.py), for a single caller
    in a single process: the pid never changes, so the fork-detection branches
    of the source are not exercised, and no two threads interleave.
    Machine integers are modelled as Nat; each SocketInfo is numbered by
    creation order, the number standing for the distinct raw socket it wraps. -/

/-- An address (host, port). -/
abbrev Addr := String × Nat

/-- Network-visible actions, used to state ordering properties. -/
inductive NetEvent where
  | connect (a : Addr)
  | send (a : Addr) (data : Nat)
  | recv (a : Addr)
  deriving DecidableEq, Repr

/-- The values a pool's per-thread request slot can hold: `NO_REQUEST = None`,
    `NO_SOCKET_YET = -1`, or a SocketInfo wrapping raw socket `sock`. -/
inductive PValue where
  | noRequest
  | noSocketYet
  | socketInfo (sock : Nat)
  deriving DecidableEq, Repr

/-- Python hasattr(v, 'sock'): only SocketInfo instances carry a sock. -/
def hasSockAttr : PValue → Bool
  | .socketInfo _ => true
  | _ => false

def sockAttrOf : PValue → Nat
  | .socketInfo s => s
  | _ => 0

/-- SocketInfo.__eq__ (pool.py): hasattr(other, 'sock') and self.sock == other.sock. -/
def socketInfoEq (selfSock : Nat) (other : PValue) : Bool :=
  hasSockAttr other && (selfSock == sockAttrOf other)

/-- Python == on the values the pool compares: a SocketInfo on either side
    dispatches to SocketInfo.__eq__ (directly or reflected); None and -1
    compare by identity/value. -/
def pyEq : PValue → PValue → Bool
  | .socketInfo s, other => socketInfoEq s other
  | .noRequest, .socketInfo s => socketInfoEq s .noRequest
  | .noSocketYet, .socketInfo s => socketInfoEq s .noSocketYet
  | .noRequest, .noRequest => true
  | .noSocketYet, .noSocketYet => true
  | _, _ => false

/-- The mutable fields of a SocketInfo that the pool reads (pool.py).
    authset is not modelled: the client embedding below carries no cached
    credentials, for which __check_auth is a no-op. -/
structure SockAttrs where
  pool_id : Nat
  closed : Bool
  forced : Bool
  deriving DecidableEq, Repr, Inhabited

/-- Pool state (pool.py class Pool), single caller: `reqState` is the caller's
    entry of _tid_to_sock (PValue.noRequest when absent), `requestCounter` its
    _request_counter value, `semaphore` the free permits of _socket_semaphore.
    `attrs n` holds the fields of socket n; `nextSock` numbers the next socket
    `connect` will create. -/
structure PoolState where
  pair : Addr
  maxSize : Option Nat
  pool_id : Nat
  idle : List Nat
  reqState : PValue
  requestCounter : Nat
  semaphore : Nat
  attrs : Nat → SockAttrs
  nextSock : Nat

def closeSockAttr (st : PoolState) (s : Nat) : PoolState :=
  { st with attrs := Function.update st.attrs s { st.attrs s with closed := true } }

def setForcedAttr (st : PoolState) (s : Nat) (b : Bool) : PoolState :=
  { st with attrs := Function.update st.attrs s { st.attrs s with forced := b } }

/-- Pool.connect: create a fresh SocketInfo; its pool_id is stamped with the
    pool's current pool_id. -/
def connectPool (st : PoolState) : Nat × PoolState :=
  (st.nextSock,
   { st with
      attrs := Function.update st.attrs st.nextSock
        { pool_id := st.pool_id, closed := false, forced := false }
      nextSock := st.nextSock + 1 })

/-- Pool.reset: bump pool_id, swap the idle set with an empty one, close all
    formerly idle sockets. -/
def resetPool (st : PoolState) : PoolState :=
  { st with
     pool_id := st.pool_id + 1
     idle := []
     attrs := fun n => if n ∈ st.idle then { st.attrs n with closed := true } else st.attrs n }

/-- too_many_sockets: max_size is not None and len(self.sockets) >= max_size. -/
def poolTooMany (st : PoolState) : Bool :=
  match st.maxSize with
  | none => false
  | some m => decide (st.idle.length ≥ m)

/-- self.sockets.add(sock_info): a Python set add, a no-op on a present
    element. -/
def idleAdd (st : PoolState) (s : Nat) : PoolState :=
  { st with idle := if s ∈ st.idle then st.idle else s :: st.idle }

/-- Pool._return_socket: add to the idle set unless the pool is full or the
    socket predates the last reset (then close it); release the permit unless
    the socket is forced (then just drop the forced flag). -/
def _return_socket (st : PoolState) (s : Nat) : PoolState :=
  let st1 :=
    if !poolTooMany st && (st.attrs s).pool_id == st.pool_id then idleAdd st s
    else closeSockAttr st s
  if (st1.attrs s).forced then setForcedAttr st1 s false
  else { st1 with semaphore := st1.semaphore + 1 }

/-- Pool.maybe_return_socket, with the pid unchanged. The argument is always a
    real SocketInfo, so the leading `sock_info in (NO_REQUEST, NO_SOCKET_YET)`
    test of the source is False (SocketInfo.__eq__ rejects both sentinels). -/
def maybe_return_socket (st : PoolState) (s : Nat) : PoolState :=
  if (st.attrs s).closed then
    if (st.attrs s).forced then setForcedAttr st s false
    else if !(pyEq (.socketInfo s) st.reqState) then
      { st with semaphore := st.semaphore + 1 }
    else st
  else
    if !(pyEq (.socketInfo s) st.reqState) then _return_socket st s
    else st

/-- Pool.start_request. -/
def start_request (st : PoolState) : PoolState :=
  let st1 := if pyEq st.reqState .noRequest then { st with reqState := .noSocketYet } else st
  { st1 with requestCounter := st1.requestCounter + 1 }

/-- Pool.end_request: decrement the counter when positive; when it was 1, drop
    the request binding and return a bound socket (the source's
    `sock_info not in (NO_REQUEST, NO_SOCKET_YET)` is the socketInfo case). -/
def end_request (st : PoolState) : PoolState :=
  if st.requestCounter ≠ 0 then
    let st1 := { st with requestCounter := st.requestCounter - 1 }
    if st.requestCounter = 1 then
      match st1.reqState with
      | .socketInfo n => _return_socket { st1 with reqState := .noRequest } n
      | _ => { st1 with reqState := .noRequest }
    else st1
  else st

/-- The on_thread_died weakref hook (pool.py _set_request_state): pop the dead
    caller's binding and return a bound socket. -/
def on_thread_died (st : PoolState) : PoolState :=
  match st.reqState with
  | .socketInfo n => _return_socket { st with reqState := .noRequest } n
  | _ => { st with reqState := .noRequest }

/-- Environment of one get_socket call: `probeDead` is the outcome of the
    interval-gated select() liveness probe in Pool._check (true means the
    interval elapsed and _closed() reported the peer gone); `connectOk` is
    whether a connect() attempt would succeed. -/
structure GetEnv where
  probeDead : Bool
  connectOk : Bool
  deriving Repr

/-- The exception taxonomy of pymongo.errors that the embedded code raises.
    DuplicateKeyError is a subclass of OperationFailure, and AutoReconnect a
    subclass of ConnectionFailure; the subclass relations are encoded where
    the source catches the parent class. -/
inductive Exc where
  | configurationError (msg : String)
  | autoReconnect (msg : String)
  | connectionFailure (msg : String)
  | socketError (msg : String)
  | documentTooLarge (size : Nat) (limit : Nat)
  | operationFailure (err : String) (code : Option Int)
  | duplicateKeyError (err : String) (code : Option Int)
  | keyError
  deriving DecidableEq, Repr

/-- Result of Pool.get_socket: a socket plus the post-state and the network
    events performed, or a raised exception. -/
inductive GetOut where
  | ok (sock : Nat) (st : PoolState) (events : List NetEvent)
  | err (e : Exc) (st : PoolState) (events : List NetEvent)

/-- Shared failure path of Pool._check: on a dead socket try one fresh
    connect; if that fails, reset the pool and re-raise the socket error. -/
def recoverDead (env : GetEnv) (st : PoolState) : GetOut :=
  if env.connectOk then
    let (n, st1) := connectPool st
    .ok n st1 [.connect st.pair]
  else
    .err (.socketError "connect failed") (resetPool st) []

/-- Pool._check: dead if closed, or stamped with an old pool_id (close it), or
    the interval-gated probe says the peer hung up (close it). -/
def _check (env : GetEnv) (st : PoolState) (s : Nat) : GetOut :=
  if (st.attrs s).closed then recoverDead env st
  else if st.pool_id ≠ (st.attrs s).pool_id then recoverDead env (closeSockAttr st s)
  else if env.probeDead then recoverDead env (closeSockAttr st s)
  else .ok s st []

/-- The body of Pool.get_socket after a permit was settled (the try block of
    the source): pop an idle socket and check it, or connect a fresh one;
    stamp the forced flag; bind the socket when the request slot was
    NO_SOCKET_YET (`reqOrig`, the req_state read before acquiring); on any
    error release the permit unless forced and re-raise. -/
def get_socket_pooled (st0 : PoolState) (reqOrig : PValue) (forced : Bool)
    (env : GetEnv) : GetOut :=
  match st0.idle with
  | s :: restIdle =>
      let st1 := { st0 with idle := restIdle }
      match _check env st1 s with
      | .ok s1 st2 evs =>
          let st3 := setForcedAttr st2 s1 forced
          let st4 := if pyEq reqOrig .noSocketYet
                     then { st3 with reqState := .socketInfo s1 } else st3
          .ok s1 st4 evs
      | .err e st2 evs =>
          let st3 := if forced then st2 else { st2 with semaphore := st2.semaphore + 1 }
          .err e st3 evs
  | [] =>
      if env.connectOk then
        let (n, st1) := connectPool st0
        let st2 := setForcedAttr st1 n forced
        let st3 := if pyEq reqOrig .noSocketYet
                   then { st2 with reqState := .socketInfo n } else st2
        .ok n st3 [.connect st0.pair]
      else
        let st1 := if forced then st0 else { st0 with semaphore := st0.semaphore + 1 }
        .err (.socketError "connect failed") st1 []

/-- Pool.get_socket with the pid unchanged. The request-socket branch takes no
    permit; otherwise a permit is acquired (with force, a failed non-blocking
    acquire proceeds anyway marking the socket forced) and the pooled body
    runs. A blocking acquire that would wait past wait_queue_timeout (or
    forever) is the ConnectionFailure branch. -/
def get_socket (st : PoolState) (force : Bool) (env : GetEnv) : GetOut :=
  match st.reqState with
  | .socketInfo s =>
    match _check env st s with
    | .ok s1 st1 evs =>
        let st2 := if pyEq (.socketInfo s1) st.reqState then st1
                   else { st1 with reqState := .socketInfo s1 }
        .ok s1 st2 evs
    | .err e st1 evs => .err e st1 evs
  | _ =>
    let acq : Option Bool :=
      if force then
        if st.semaphore > 0 then some false else some true
      else
        if st.semaphore > 0 then some false else none
    match acq with
    | none =>
        .err (.connectionFailure "Timed out waiting for socket from pool") st []
    | some forced =>
      let st0 := if forced then st else { st with semaphore := st.semaphore - 1 }
      get_socket_pooled st0 st.reqState forced env

/-- One observable operation of the single caller against the pool.
    `opCloseSock` is SocketInfo.close fired by an I/O fault on a socket the
    caller holds (an idle socket is not in the caller's hands, so the guard
    skips it); the other constructors are the pool's public methods. -/
inductive PoolOp where
  | opGetSocket (force : Bool) (env : GetEnv)
  | opMaybeReturn (s : Nat)
  | opStartRequest
  | opEndRequest
  | opReset
  | opCloseSock (s : Nat)
  | opThreadDied

def applyOp (st : PoolState) : PoolOp → PoolState
  | .opGetSocket force env =>
      match get_socket st force env with
      | .ok _ st1 _ => st1
      | .err _ st1 _ => st1
  | .opMaybeReturn s => if s < st.nextSock then maybe_return_socket st s else st
  | .opStartRequest => start_request st
  | .opEndRequest => end_request st
  | .opReset => resetPool st
  | .opCloseSock s => if s ∈ st.idle then st else closeSockAttr st s
  | .opThreadDied => on_thread_died st

def runOps : List PoolOp → PoolState → PoolState
  | [], st => st
  | op :: rest, st => runOps rest (applyOp st op)

/-- A freshly constructed pool (Pool.__init__) with max_pool_size 2. -/
def pool0 : PoolState :=
  { pair := ("localhost", 27017)
    maxSize := some 2
    pool_id := 0
    idle := []
    reqState := .noRequest
    requestCounter := 0
    semaphore := 2
    attrs := fun _ => default
    nextSock := 0 }

/-- The generation half of the spec's idle-socket invariant: every idle socket
    is stamped with the pool's current pool_id. -/
def idleGood (st : PoolState) : Prop :=
  ∀ s ∈ st.idle, (st.attrs s).pool_id = st.pool_id

instance (st : PoolState) : Decidable (idleGood st) := by
  unfold idleGood; infer_instance

/-- Request bookkeeping consistency for a live caller: its counter is zero
    exactly when it holds no request entry. -/
def wfState (st : PoolState) : Prop :=
  st.requestCounter = 0 ↔ st.reqState = PValue.noRequest

instance (st : PoolState) : Decidable (wfState st) := by
  unfold wfState; infer_instance

def applyN (f : PoolState → PoolState) : Nat → PoolState → PoolState
  | 0, st => st
  | n + 1, st => applyN f n (f st)

def addrStr (a : Addr) : String := a.1 ++ ":" ++ toString a.2

/-- str.startswith, stated structurally on the character data. -/
def strStartsWith (s pre : String) : Bool := pre.data.isPrefixOf s.data

/-- The exception classes __find_node re-raises at once (its first except
    clause): OperationFailure — of which DuplicateKeyError is a subclass —
    ConfigurationError, and ValueError (the latter has no model here). -/
def Exc.isImmediateResolverError : Exc → Bool
  | .configurationError _ => true
  | .operationFailure _ _ => true
  | .duplicateKeyError _ _ => true
  | _ => false

/-- str(why), the message accumulated by __find_node for skipped candidates. -/
def excMessage : Exc → String
  | .configurationError m => m
  | .autoReconnect m => m
  | .connectionFailure m => m
  | .socketError m => m
  | .documentTooLarge _ _ => "BSON document too large"
  | .operationFailure e _ => e
  | .duplicateKeyError e _ => e
  | .keyError => "KeyError"

/-- The fields of an ismaster handshake response that the core consumes.
    `hosts` and `primary` carry addresses already split by _partition_node
    (the "host:port" string parsing is abstracted away). A missing Bool field
    reads as False, as with dict.get defaults. -/
structure IsMasterResponse where
  ismaster : Bool
  secondary : Bool
  arbiterOnly : Bool
  msg : Option String
  setName : Option String
  hosts : Option (List Addr)
  primary : Option Addr
  maxBsonObjectSize : Option Nat
  deriving DecidableEq, Repr

/-- Modelled from the spec: pymongo/member.py is not under src/. §3 gives the
    Member record; §4.C derives the kind from `ismaster`, `secondary`,
    `arbiterOnly` and `msg == "isdbgrid"` (router); §6 lists the size fields
    with default max_bson_size 16 MiB before a handshake completes. The pool
    the member holds is carried separately alongside it. -/
structure Member where
  host : Addr
  is_primary : Bool
  is_mongos : Bool
  is_arbiter : Bool
  set_name : Option String
  ping_time : Nat
  max_bson_size : Nat
  deriving DecidableEq, Repr, Inhabited

/-- Modelled from the spec: Member construction from the handshake document
    (§4.C, §6). ping_time is in milliseconds. -/
def mkMember (node : Addr) (r : IsMasterResponse) (ping : Nat) : Member :=
  { host := node
    is_primary := r.ismaster
    is_mongos := r.msg == some "isdbgrid"
    is_arbiter := r.arbiterOnly
    set_name := r.setName
    ping_time := ping
    max_bson_size := r.maxBsonObjectSize.getD 16777216 }

/-- What probing one address yields: the ismaster response and the measured
    round-trip time, or a raised exception (a network fault is a
    socketError; an auth failure would be an operationFailure). -/
inductive HandshakeResult where
  | ok (resp : IsMasterResponse) (ping : Nat)
  | failure (e : Exc)
  deriving DecidableEq, Repr

/-- MongoClient.__try_node. `direct` is `len(seeds) == 1 and not replica-set
    name`; `repl` the configured set name; `net` the deployment being probed;
    `fuel` bounds the primary-shortcut recursion (Python's recursion limit). -/
def try_node (direct : Bool) (repl : Option String) (net : Addr → HandshakeResult) :
    Nat → Addr → Except Exc (Member × List Addr)
  | 0, _ => .error (.autoReconnect "maximum recursion depth exceeded")
  | fuel + 1, node =>
    match net node with
    | .failure e => .error e
    | .ok resp ping =>
      let member := mkMember node resp ping
      if !direct then
        if repl.isSome && member.set_name != repl then
          .error (.configurationError
            (addrStr node ++ " is not a member of replica set " ++ (repl.getD "")))
        else
          let nodes : List Addr := match resp.hosts with
            | some hs => hs
            | none => [node]
          if member.is_primary then .ok (member, nodes)
          else
            match resp.primary with
            | some candidate => try_node direct repl net fuel candidate
            | none => .error (.autoReconnect (addrStr node ++ " is not primary or master"))
      else
        -- Direct connection
        if member.is_arbiter && !direct then
          .error (.configurationError (addrStr node ++ " is an arbiter"))
        else
          .ok (member, [node])

/-- MongoClient.__pick_nearest: the fastest mongos, ties within the latency
    threshold broken by random.choice, modelled by the index `choice`.
    ping_time and latency are both in milliseconds (the source divides its
    millisecond threshold by 1000 to compare against seconds). -/
def pick_nearest (latency choice : Nat) (candidates : List Member) : Member :=
  let pings := candidates.map (fun m => m.ping_time)
  let fastest := pings.foldr Nat.min (pings.headD 0)
  let near := candidates.filter (fun m => m.ping_time - fastest < latency)
  near.getD (choice % near.length) (candidates.headD default)

/-- The candidate loop of MongoClient.__find_node, with its two accumulators:
    the per-candidate error strings and the mongos members found so far. -/
def find_node_loop (direct : Bool) (repl : Option String) (net : Addr → HandshakeResult)
    (fuel latency choice : Nat) (knownNodes : List Addr) :
    List Addr → List String → List Member → Except Exc (Member × List Addr)
  | [], errors, mongosCandidates =>
      if !mongosCandidates.isEmpty then
        .ok (pick_nearest latency choice mongosCandidates,
             -- return chosen_member, self.__nodes or mongoses
             if knownNodes.isEmpty then mongosCandidates.map (fun m => m.host) else knownNodes)
      else
        .error (.autoReconnect (String.intercalate ", " errors))
  | c :: rest, errors, mongosCandidates =>
      match try_node direct repl net fuel c with
      | .ok (member, nodes) =>
          if member.is_mongos && !direct then
            find_node_loop direct repl net fuel latency choice knownNodes
              rest errors (mongosCandidates ++ [member])
          else if !mongosCandidates.isEmpty then
            .error (.configurationError
              "Seed list cannot contain a mix of mongod and mongos instances.")
          else
            .ok (member, nodes)
      | .error e =>
          if e.isImmediateResolverError then .error e
          else find_node_loop direct repl net fuel latency choice knownNodes
                 rest (errors ++ [excMessage e]) mongosCandidates

/-- MongoClient.__find_node over a candidate enumeration (frozensets iterate
    in arbitrary order, so the order is a parameter). `knownNodes` is
    self.__nodes, read by the mongos branch. -/
def find_node (direct : Bool) (repl : Option String) (net : Addr → HandshakeResult)
    (fuel latency choice : Nat) (knownNodes candidates : List Addr) :
    Except Exc (Member × List Addr) :=
  find_node_loop direct repl net fuel latency choice knownNodes candidates [] []

/-- The client-level state the resolution path touches. Node sets are lists
    standing for frozensets; "or" truthiness is emptiness. -/
structure ClientState where
  seeds : List Addr
  nodes : List Addr
  member : Option Member
  direct : Bool
  repl : Option String
  deriving Repr

/-- MongoClient.__ensure_member for the single caller (no concurrent waiter,
    so the future/connecting branch is never taken): run __find_node on
    `self.__nodes or self.__seeds`; in the finally block install the member
    (None on failure) and replace nodes only when a truthy node set was
    discovered. -/
def ensure_member (c : ClientState) (net : Addr → HandshakeResult)
    (fuel latency choice : Nat) : Except Exc Member × ClientState :=
  match c.member with
  | some m => (.ok m, c)
  | none =>
    let candidates := if c.nodes.isEmpty then c.seeds else c.nodes
    match find_node c.direct c.repl net fuel latency choice c.nodes candidates with
    | .ok (m, ns) =>
        (.ok m, { c with member := some m, nodes := if ns.isEmpty then c.nodes else ns })
    | .error e => (.error e, { c with member := none })

/-- MongoClient.disconnect: swap out the cached member; its pool is reset
    (the pool state, carried separately, goes through resetPool). -/
def disconnect (c : ClientState) : ClientState := { c with member := none }

/-- An errObjects entry of a lastError reply: errobj.get("err") and
    errobj.get("code"). -/
structure GleErrObj where
  err : Option String
  code : Option Int
  deriving DecidableEq, Repr

/-- A decoded lastError reply. `err = none` is an absent "err" key,
    `some none` a BSON null, `some (some s)` a string. -/
structure GleResult where
  err : Option (Option String)
  code : Option Int
  errObjects : Option (List GleErrObj)
  deriving DecidableEq, Repr

instance {ε α : Type} [DecidableEq ε] [DecidableEq α] : DecidableEq (Except ε α)
  | .ok a, .ok b =>
      if h : a = b then .isTrue (by rw [h]) else .isFalse (by intro hc; cases hc; exact h rfl)
  | .error a, .error b =>
      if h : a = b then .isTrue (by rw [h]) else .isFalse (by intro hc; cases hc; exact h rfl)
  | .ok _, .error _ => .isFalse (by intro hc; cases hc)
  | .error _, .ok _ => .isFalse (by intro hc; cases hc)

/-- What MongoClient.__check_response_to_last_error does with the decoded
    reply, plus whether it called self.disconnect(). -/
structure GleCheck where
  result : Except Exc GleResult
  disconnected : Bool
  deriving DecidableEq, Repr

/-- The `details` document the error is reported from: the first errObjects
    entry whose err matches the reply's err (mongos puts the code there), else
    the reply itself. Returns its "err" and "code" entries; a missing "err"
    (first component none) is the source's KeyError on details["err"]. -/
def gleDetails (result : GleResult) (msg : String) : Option String × Option Int :=
  let found : Option GleErrObj := match result.errObjects with
    | some objs => objs.find? (fun o => o.err == some msg)
    | none => none
  match found with
  | some o => (o.err, o.code)
  | none =>
    (match result.err with
     | some (some s) => some s
     | _ => none,
     result.code)

/-- MongoClient.__check_response_to_last_error on the decoded result document.
    helpers._check_command_response (pymongo/helpers, not under src/) validates
    the reply's ok field; a getLastError reply has ok:1, so it passes and is
    modelled as a no-op. `result["err"]` on a document without the key is a
    KeyError. -/
def check_response_to_last_error (isCommand : Bool) (result : GleResult) : GleCheck :=
  if isCommand then ⟨.ok result, false⟩
  else
    let errorMsg : Option String := match result.err with
      | none => some ""
      | some v => v
    match errorMsg with
    | none => ⟨.ok result, false⟩
    | some msg =>
      if strStartsWith msg "not master" then ⟨.error (.autoReconnect msg), true⟩
      else
        match gleDetails result msg with
        | (none, _) => ⟨.error .keyError, false⟩
        | (some e, dCode) =>
          if dCode == some 11000 || dCode == some 11001 || dCode == some 12582 then
            ⟨.error (.duplicateKeyError e dCode), false⟩
          else
            ⟨.error (.operationFailure e dCode), false⟩

/-- An outbound message as _send_message receives it: (request_id, data) or
    (request_id, data, max_doc_size); data is an opaque payload token. -/
inductive WireMessage where
  | two (requestId : Nat) (data : Nat)
  | three (requestId : Nat) (data : Nat) (maxDocSize : Nat)
  deriving DecidableEq, Repr

/-- MongoClient.__check_bson_size with self.max_bson_size = maxBson (the
    connected member's value): a three-element message above the limit is a
    DocumentTooLarge; otherwise (request_id, data) is passed on. -/
def check_bson_size (maxBson : Nat) : WireMessage → Except Exc (Nat × Nat)
  | .two rid d => .ok (rid, d)
  | .three rid d mds =>
      if mds > maxBson then .error (.documentTooLarge mds maxBson)
      else .ok (rid, d)

/-- Outcome of MongoClient._send_message: the returned value or the raised
    exception, the network events in order, the member's pool afterwards, and
    whether disconnect() ran. -/
structure SendResult where
  outcome : Except Exc (Option GleResult)
  events : List NetEvent
  pool : PoolState
  disconnected : Bool

/-- MongoClient._send_message against the cached member `m` (the value
    __ensure_member returns; self.is_primary reads the same member) whose pool
    is `pool`. auto_start_request is False (its default) and the credential
    cache empty, so __socket's start_request and __check_auth do nothing. The
    network reply to a getLastError, when read, decodes to `reply`. -/
def send_message (m : Member) (pool : PoolState) (env : GetEnv) (msg : WireMessage)
    (reply : GleResult) (withLastError isCommand checkPrimary : Bool) : SendResult :=
  if checkPrimary && !withLastError && !m.is_primary then
    -- The write won't succeed, bail as if we'd done a getLastError
    { outcome := .error (.autoReconnect "not master")
      events := [], pool := pool, disconnected := false }
  else
    match get_socket pool false env with
    | .err e pool1 evs =>
        match e with
        | .socketError why =>
            -- __socket catches socket.error: disconnect() resets the member's
            -- pool and AutoReconnect is raised.
            { outcome := .error (.autoReconnect
                ("could not connect to " ++ addrStr m.host ++ ": " ++ why))
              events := evs, pool := resetPool pool1, disconnected := true }
        | _ =>
            -- a wait-queue ConnectionFailure propagates unchanged
            { outcome := .error e, events := evs, pool := pool1, disconnected := false }
    | .ok sock pool1 evs =>
        match check_bson_size m.max_bson_size msg with
        | .error e =>
            -- DocumentTooLarge is neither OperationFailure nor
            -- ConnectionFailure: it propagates as-is, and the with-block exit
            -- returns the socket to the pool.
            { outcome := .error e, events := evs
              pool := maybe_return_socket pool1 sock, disconnected := false }
        | .ok (_, data) =>
            let evs1 := evs ++ [.send pool.pair data]
            if withLastError then
              let evs2 := evs1 ++ [.recv pool.pair]
              let gc := check_response_to_last_error isCommand reply
              match gc.result with
              | .ok r =>
                  { outcome := .ok (some r), events := evs2
                    pool := maybe_return_socket pool1 sock, disconnected := false }
              | .error e =>
                  -- a "not master" AutoReconnect already called disconnect(),
                  -- resetting the pool; the except clause's second disconnect
                  -- finds no member and re-raises AutoReconnect. The stale
                  -- socket is closed by the with-block return path.
                  let pool2 := if gc.disconnected then resetPool pool1 else pool1
                  { outcome := .error e, events := evs2
                    pool := maybe_return_socket pool2 sock, disconnected := gc.disconnected }
            else
              { outcome := .ok none, events := evs1
                pool := maybe_return_socket pool1 sock, disconnected := false }

/-! Concrete fixtures used by the witnesses and counterexamples. -/

def env0 : GetEnv := { probeDead := false, connectOk := true }

/-- A handshake response marking the node an arbiter of replica set rs. -/
def respArbiter : IsMasterResponse :=
  { ismaster := false, secondary := false, arbiterOnly := true, msg := none
    setName := some "rs", hosts := some [("a", 1), ("b", 2)], primary := some ("b", 2)
    maxBsonObjectSize := none }

/-- A deployment whose only reachable node ("a", 1) is an arbiter. -/
def netArbiter : Addr → HandshakeResult := fun a =>
  if a = ("a", 1) then .ok respArbiter 5 else .failure (.socketError "unreachable")

def memArb : Member :=
  { host := ("a", 1), is_primary := false, is_mongos := false, is_arbiter := true
    set_name := some "rs", ping_time := 5, max_bson_size := 16777216 }

/-- A standalone mongod primary response. -/
def respPrimary : IsMasterResponse :=
  { ismaster := true, secondary := false, arbiterOnly := false, msg := none
    setName := none, hosts := none, primary := none, maxBsonObjectSize := none }

/-- A mongos response (msg == "isdbgrid"). -/
def respMongos : IsMasterResponse :=
  { ismaster := true, secondary := false, arbiterOnly := false, msg := some "isdbgrid"
    setName := none, hosts := none, primary := none, maxBsonObjectSize := none }

/-- A mixed deployment: ("d", 1) is a mongod primary, ("s", 2) a mongos. -/
def netMixed : Addr → HandshakeResult := fun a =>
  if a = ("d", 1) then .ok respPrimary 5
  else if a = ("s", 2) then .ok respMongos 7
  else .failure (.socketError "unreachable")

def memD : Member :=
  { host := ("d", 1), is_primary := true, is_mongos := false, is_arbiter := false
    set_name := none, ping_time := 5, max_bson_size := 16777216 }

def memS : Member :=
  { host := ("s", 2), is_primary := true, is_mongos := true, is_arbiter := false
    set_name := none, ping_time := 7, max_bson_size := 16777216 }

/-! C1. The claim: a direct-mode probe of a node whose handshake says
    arbiterOnly raises ConfigurationError and returns no Member. In the
    source the guard is `member.is_arbiter and not self.__direct`, but the
    line is only reached when __direct is true (every path of the
    not-direct branch returns or raises), so the guard never fires and the
    Member is returned — consistent with __find_node's docstring, which
    says a direct connection may be used to send commands to an arbiter. -/

/-- C1 counterexample: in direct mode (one seed, no set name) the probe of an
    arbiter returns the Member and raises nothing, contradicting the claim
    that it raises ConfigurationError and does not return a Member. -/
theorem c1_counterexample :
    try_node true none netArbiter 1 ("a", 1) = .ok (memArb, [("a", 1)]) ∧
    ∀ e, try_node true none netArbiter 1 ("a", 1) ≠ Except.error e := by
  have h1 : try_node true none netArbiter 1 ("a", 1) = .ok (memArb, [("a", 1)]) := by decide
  refine ⟨h1, ?_⟩
  intro e h
  rw [h1] at h
  exact Except.noConfusion h

/-- C1 (amended): every direct-mode probe whose handshake succeeds returns the
    member built from the response together with the single-address node set —
    also when the response marks the node an arbiter; the arbiter
    ConfigurationError of __try_node is unreachable in direct mode. -/
theorem c1_direct_probe_returns_member (repl : Option String)
    (net : Addr → HandshakeResult) (fuel : Nat) (node : Addr)
    (resp : IsMasterResponse) (ping : Nat) (h : net node = .ok resp ping) :
    try_node true repl net (fuel + 1) node = .ok (mkMember node resp ping, [node]) := by
  unfold try_node
  rw [h]
  simp

/-- C1 witness: the amended theorem applied to the arbiter deployment. -/
theorem c1_witness :
    netArbiter ("a", 1) = .ok respArbiter 5 ∧
    try_node true none netArbiter (0 + 1) ("a", 1) =
      .ok (mkMember ("a", 1) respArbiter 5, [("a", 1)]) :=
  ⟨by decide, c1_direct_probe_returns_member none netArbiter 0 ("a", 1) respArbiter 5 (by decide)⟩

/-! C3. The claim: any non-direct resolution whose candidates include a
    reachable mongod and a reachable mongos raises ConfigurationError
    regardless of probe order. In the source the loop breaks with the first
    usable non-mongos member and only raises the mixed-list error when some
    mongos was collected earlier, so a usable mongod probed before any
    mongos is returned without error. -/

/-- C3 counterexample: candidates [mongod, mongos] probed in that order —
    __find_node returns the mongod primary and never raises, although the
    list mixes a mongod and a mongos. -/
theorem c3_counterexample :
    find_node false none netMixed 1 10 0 [] [("d", 1), ("s", 2)] = .ok (memD, [("d", 1)]) ∧
    ∀ e, find_node false none netMixed 1 10 0 [] [("d", 1), ("s", 2)] ≠ Except.error e := by
  have h1 : find_node false none netMixed 1 10 0 [] [("d", 1), ("s", 2)] =
      .ok (memD, [("d", 1)]) := by decide
  refine ⟨h1, ?_⟩
  intro e h
  rw [h1] at h
  exact Except.noConfusion h

/-- Loop invariant behind the amended C3: once the mongos accumulator is
    nonempty (or some earlier candidate is sure to make it nonempty), a
    usable non-mongos member raises the mixed-list ConfigurationError. -/
theorem find_node_loop_mix (repl : Option String) (net : Addr → HandshakeResult)
    (fuel latency choice : Nat) (knownNodes : List Addr) :
    ∀ (pre : List Addr) (errors : List String) (mcs : List Member)
      (c : Addr) (rest : List Addr) (m : Member) (nodes : List Addr),
      (∀ x ∈ pre,
        (∃ mem ns, try_node false repl net fuel x = .ok (mem, ns) ∧ mem.is_mongos = true) ∨
        (∃ e, try_node false repl net fuel x = .error e ∧ e.isImmediateResolverError = false)) →
      (mcs ≠ [] ∨ ∃ x ∈ pre, ∃ mem ns,
          try_node false repl net fuel x = .ok (mem, ns) ∧ mem.is_mongos = true) →
      try_node false repl net fuel c = .ok (m, nodes) → m.is_mongos = false →
      find_node_loop false repl net fuel latency choice knownNodes (pre ++ c :: rest) errors mcs =
        .error (.configurationError
          "Seed list cannot contain a mix of mongod and mongos instances.") := by
  intro pre
  induction pre with
  | nil =>
    intro errors mcs c rest m nodes hall hne hm hnm
    have hmcs : mcs ≠ [] := by
      rcases hne with h | ⟨x, hx, _⟩
      · exact h
      · exact absurd hx (List.not_mem_nil x)
    rw [List.nil_append]
    unfold find_node_loop
    rw [hm]
    simp [hnm, hmcs]
  | cons x pre ih =>
    intro errors mcs c rest m nodes hall hne hm hnm
    have hx := hall x (List.mem_cons_self x pre)
    have hall2 : ∀ y ∈ pre,
        (∃ mem ns, try_node false repl net fuel y = .ok (mem, ns) ∧ mem.is_mongos = true) ∨
        (∃ e, try_node false repl net fuel y = .error e ∧ e.isImmediateResolverError = false) :=
      fun y hy => hall y (List.mem_cons_of_mem x hy)
    rw [List.cons_append]
    rcases hx with ⟨mem, ns, hok, hmg⟩ | ⟨e, herr, himm⟩
    · unfold find_node_loop
      rw [hok]
      simp only [hmg, Bool.not_false, Bool.and_self, if_pos]
      exact ih errors (mcs ++ [mem]) c rest m nodes hall2 (Or.inl (by simp)) hm hnm
    · unfold find_node_loop
      rw [herr]
      simp only [himm, Bool.false_eq_true, if_neg, ite_false]
      refine ih (errors ++ [excMessage e]) mcs c rest m nodes hall2 ?_ hm hnm
      rcases hne with h | ⟨y, hy, mem, ns, hok2, hmg2⟩
      · exact Or.inl h
      · rcases List.mem_cons.mp hy with rfl | hy2
        · rw [herr] at hok2
          exact Except.noConfusion hok2
        · exact Or.inr ⟨y, hy2, mem, ns, hok2, hmg2⟩

/-- C3 (amended): the mixed-list ConfigurationError is raised exactly when a
    usable non-mongos member is probed after at least one mongos has been
    collected: if every candidate before c is either a reachable mongos or a
    skippable failure, at least one of them is a mongos, and c probes to a
    usable non-mongos member, __find_node raises the error. With the mongod
    probed before any mongos it is simply returned (see the counterexample). -/
theorem c3_mix_error_when_router_first (repl : Option String)
    (net : Addr → HandshakeResult) (fuel latency choice : Nat)
    (knownNodes pre : List Addr) (c : Addr) (rest : List Addr)
    (m : Member) (nodes : List Addr)
    (hall : ∀ x ∈ pre,
      (∃ mem ns, try_node false repl net fuel x = .ok (mem, ns) ∧ mem.is_mongos = true) ∨
      (∃ e, try_node false repl net fuel x = .error e ∧ e.isImmediateResolverError = false))
    (hsome : ∃ x ∈ pre, ∃ mem ns,
      try_node false repl net fuel x = .ok (mem, ns) ∧ mem.is_mongos = true)
    (hm : try_node false repl net fuel c = .ok (m, nodes))
    (hnm : m.is_mongos = false) :
    find_node false repl net fuel latency choice knownNodes (pre ++ c :: rest) =
      .error (.configurationError
        "Seed list cannot contain a mix of mongod and mongos instances.") :=
  find_node_loop_mix repl net fuel latency choice knownNodes pre [] [] c rest m nodes
    hall (Or.inr hsome) hm hnm

/-- C3 witness: the amended theorem applied to the mixed deployment with the
    mongos probed first. -/
theorem c3_witness :
    try_node false none netMixed 1 ("s", 2) = .ok (memS, [("s", 2)]) ∧
    memS.is_mongos = true ∧
    try_node false none netMixed 1 ("d", 1) = .ok (memD, [("d", 1)]) ∧
    memD.is_mongos = false ∧
    find_node false none netMixed 1 10 0 [] [("s", 2), ("d", 1)] =
      .error (.configurationError
        "Seed list cannot contain a mix of mongod and mongos instances.") :=
  ⟨by decide, by decide, by decide, by decide,
   c3_mix_error_when_router_first none netMixed 1 10 0 [] [("s", 2)] ("d", 1) [] memD [("d", 1)]
     (by
       intro x hx
       simp only [List.mem_singleton] at hx
       subst hx
       exact Or.inl ⟨memS, [("s", 2)], by decide, by decide⟩)
     ⟨("s", 2), by simp, memS, [("s", 2)], by decide, by decide⟩
     (by decide) (by decide)⟩

/-! C5. The claim lists the duplicate-key code translation before the
    "not master" translation, but the source tests err.startswith("not
    master") first: a reply whose err starts with "not master" and whose
    code is 11000 yields disconnect + AutoReconnect, not DuplicateKeyError. -/

/-- A lastError reply whose err starts with "not master" and whose code is a
    duplicate-key code. -/
def gleNotMasterDup : GleResult :=
  { err := some (some "not master"), code := some 11000, errObjects := none }

/-- C5 counterexample: on a non-null err "not master" with code 11000 the
    client disconnects and raises AutoReconnect, contradicting the claim that
    code 11000 yields DuplicateKeyError. -/
theorem c5_counterexample :
    check_response_to_last_error false gleNotMasterDup =
      ⟨.error (.autoReconnect "not master"), true⟩ ∧
    ∀ e c, (check_response_to_last_error false gleNotMasterDup).result ≠
      .error (.duplicateKeyError e c) := by
  have h1 : check_response_to_last_error false gleNotMasterDup =
      ⟨.error (.autoReconnect "not master"), true⟩ := by decide
  refine ⟨h1, ?_⟩
  intro e c h
  rw [h1] at h
  simp only [Except.error.injEq] at h
  exact Exc.noConfusion h

/-- C5 (amended): for a getLastError reply (is_command false) the translation
    is, in this order: a null err returns the reply; an err starting with
    "not master" disconnects and raises AutoReconnect; otherwise, with the
    effective err/code resolved through a matching errObjects entry when one
    exists (gleDetails), a code of 11000, 11001 or 12582 raises
    DuplicateKeyError and any other error raises OperationFailure. -/
theorem c5_last_error_translation (result : GleResult) :
    (result.err = some none →
      check_response_to_last_error false result = ⟨.ok result, false⟩) ∧
    (∀ msg, result.err = some (some msg) → strStartsWith msg "not master" = true →
      check_response_to_last_error false result = ⟨.error (.autoReconnect msg), true⟩) ∧
    (∀ msg e c, result.err = some (some msg) → strStartsWith msg "not master" = false →
      gleDetails result msg = (some e, c) →
      ((c = some 11000 ∨ c = some 11001 ∨ c = some 12582) →
        check_response_to_last_error false result =
          ⟨.error (.duplicateKeyError e c), false⟩) ∧
      ((c ≠ some 11000 ∧ c ≠ some 11001 ∧ c ≠ some 12582) →
        check_response_to_last_error false result =
          ⟨.error (.operationFailure e c), false⟩)) := by
  refine ⟨?_, ?_, ?_⟩
  · intro h
    unfold check_response_to_last_error
    rw [h]
    simp
  · intro msg h hs
    unfold check_response_to_last_error
    rw [h]
    simp [hs]
  · intro msg e c h hs hd
    constructor
    · intro hc
      unfold check_response_to_last_error
      rw [h]
      simp only [Bool.false_eq_true, if_false, hs, hd]
      have : (c == some 11000 || c == some 11001 || c == some 12582) = true := by
        rcases hc with rfl | rfl | rfl <;> decide
      simp [this]
    · intro hc
      unfold check_response_to_last_error
      rw [h]
      simp only [Bool.false_eq_true, if_false, hs, hd]
      have : (c == some 11000 || c == some 11001 || c == some 12582) = false := by
        obtain ⟨h1, h2, h3⟩ := hc
        simp [beq_eq_false_iff_ne, h1, h2, h3]
      simp [this]

/-- C5 witness: the amended theorem applied to a duplicate-key reply. -/
theorem c5_witness :
    (⟨some (some "E11000 duplicate key"), some 11000, none⟩ : GleResult).err =
      some (some "E11000 duplicate key") ∧
    strStartsWith "E11000 duplicate key" "not master" = false ∧
    gleDetails ⟨some (some "E11000 duplicate key"), some 11000, none⟩ "E11000 duplicate key" =
      (some "E11000 duplicate key", some 11000) ∧
    check_response_to_last_error false ⟨some (some "E11000 duplicate key"), some 11000, none⟩ =
      ⟨.error (.duplicateKeyError "E11000 duplicate key" (some 11000)), false⟩ :=
  ⟨rfl, by decide, by decide,
   ((c5_last_error_translation ⟨some (some "E11000 duplicate key"), some 11000, none⟩).2.2
      "E11000 duplicate key" "E11000 duplicate key" (some 11000) rfl (by decide) (by decide)).1
      (Or.inl rfl)⟩

/-! C6 and C7 concern _send_message. -/

/-- Neither branch of get_socket ever performs a message send: its only
    network event is the connect of a fresh socket. -/
def noSendEvents : GetOut → Prop
  | .ok _ _ evs => ∀ a d, NetEvent.send a d ∉ evs
  | .err _ _ evs => ∀ a d, NetEvent.send a d ∉ evs

theorem recoverDead_no_send (env : GetEnv) (st : PoolState) :
    noSendEvents (recoverDead env st) := by
  unfold recoverDead
  split <;> simp [noSendEvents]

theorem _check_no_send (env : GetEnv) (st : PoolState) (s : Nat) :
    noSendEvents (_check env st s) := by
  unfold _check
  split_ifs <;> first | apply recoverDead_no_send | simp [noSendEvents]

theorem get_socket_pooled_no_send (st0 : PoolState) (reqOrig : PValue)
    (forced : Bool) (env : GetEnv) :
    noSendEvents (get_socket_pooled st0 reqOrig forced env) := by
  unfold get_socket_pooled
  cases hidle : st0.idle with
  | nil =>
    dsimp only
    split <;> simp [noSendEvents]
  | cons s restIdle =>
    dsimp only
    cases hc : _check env { st0 with idle := restIdle } s with
    | ok s1 st2 evs =>
        have h := _check_no_send env { st0 with idle := restIdle } s
        rw [hc] at h
        simp only [noSendEvents] at h
        simpa [noSendEvents] using h
    | err e st2 evs =>
        have h := _check_no_send env { st0 with idle := restIdle } s
        rw [hc] at h
        simp only [noSendEvents] at h
        simpa [noSendEvents] using h

theorem get_socket_no_send (st : PoolState) (force : Bool) (env : GetEnv) :
    noSendEvents (get_socket st force env) := by
  cases hrq : st.reqState with
  | socketInfo s =>
    unfold get_socket
    rw [hrq]
    dsimp only
    cases hc : _check env st s with
    | ok s1 st1 evs =>
        have h := _check_no_send env st s
        rw [hc] at h
        simp only [noSendEvents] at h
        simpa [noSendEvents] using h
    | err e st1 evs =>
        have h := _check_no_send env st s
        rw [hc] at h
        simp only [noSendEvents] at h
        simpa [noSendEvents] using h
  | noRequest =>
    unfold get_socket
    rw [hrq]
    by_cases hforce : force <;> by_cases hsem : st.semaphore > 0 <;>
      simp only [hforce, hsem, if_true, if_false, ite_true, ite_false] <;>
      first
        | apply get_socket_pooled_no_send
        | simp [noSendEvents]
  | noSocketYet =>
    unfold get_socket
    rw [hrq]
    by_cases hforce : force <;> by_cases hsem : st.semaphore > 0 <;>
      simp only [hforce, hsem, if_true, if_false, ite_true, ite_false] <;>
      first
        | apply get_socket_pooled_no_send
        | simp [noSendEvents]

/-- An innocuous getLastError reply (err null). -/
def gle0 : GleResult := { err := some none, code := none, errObjects := none }

/-- A primary member whose server accepts BSON documents up to 100 bytes. -/
def memPrim : Member :=
  { host := ("localhost", 27017), is_primary := true, is_mongos := false
    is_arbiter := false, set_name := none, ping_time := 5, max_bson_size := 100 }

/-- A non-primary (secondary) member. -/
def memSec : Member :=
  { host := ("localhost", 27017), is_primary := false, is_mongos := false
    is_arbiter := false, set_name := none, ping_time := 5, max_bson_size := 100 }

/-- C6: _send_message with check_primary, without with_last_error, against a
    member that is not primary raises AutoReconnect("not master") before any
    socket is touched: no network event happens, the pool is untouched, and
    disconnect is not called. -/
theorem c6_not_primary_unacknowledged_write (m : Member) (pool : PoolState)
    (env : GetEnv) (msg : WireMessage) (reply : GleResult) (isCommand : Bool)
    (h : m.is_primary = false) :
    send_message m pool env msg reply false isCommand true =
      { outcome := .error (.autoReconnect "not master")
        events := [], pool := pool, disconnected := false } := by
  unfold send_message
  simp [h]

/-- C6 witness: the theorem applied to a secondary member. -/
theorem c6_witness :
    memSec.is_primary = false ∧
    send_message memSec pool0 env0 (.two 1 7) gle0 false false true =
      { outcome := .error (.autoReconnect "not master")
        events := [], pool := pool0, disconnected := false } :=
  ⟨rfl, c6_not_primary_unacknowledged_write memSec pool0 env0 (.two 1 7) gle0 false rfl⟩

/-! C7. The claim: an oversized three-element message raises DocumentTooLarge
    "before any network I/O is performed". The size check sits inside
    `with self.__socket(member)`: the socket checkout that precedes it may
    itself connect a fresh TCP socket — network I/O — so only the weaker
    ordering holds: the DocumentTooLarge is raised before the message is
    sent. -/

/-- C7 counterexample: with an empty pool, sending an oversized message
    raises DocumentTooLarge, but a connect — network I/O — has already
    happened during the socket checkout, contradicting "before any network
    I/O is performed". -/
theorem c7_counterexample :
    (send_message memPrim pool0 env0 (.three 1 7 101) gle0 false false true).outcome =
      .error (.documentTooLarge 101 100) ∧
    (send_message memPrim pool0 env0 (.three 1 7 101) gle0 false false true).events =
      [NetEvent.connect ("localhost", 27017)] ∧
    (send_message memPrim pool0 env0 (.three 1 7 101) gle0 false false true).events ≠ [] := by
  refine ⟨by decide, by decide, ?_⟩
  intro h
  have h1 : (send_message memPrim pool0 env0 (.three 1 7 101) gle0 false false true).events =
      [NetEvent.connect ("localhost", 27017)] := by decide
  rw [h1] at h
  exact List.noConfusion h

/-- C7 (amended): a three-element message whose max_doc_size exceeds the
    member's max_bson_size makes _send_message raise DocumentTooLarge before
    the message is sent — the events are exactly those of the socket
    checkout, which never include a send (though they may include a connect);
    and two-element messages or three-element messages within the limit pass
    the size check, which hands (request_id, data) on unchanged. -/
theorem c7_oversized_document (m : Member) (pool : PoolState) (env : GetEnv)
    (reply : GleResult) (rid d mds : Nat) (sock : Nat) (st1 : PoolState)
    (evs : List NetEvent)
    (hp : m.is_primary = true)
    (hover : m.max_bson_size < mds)
    (hget : get_socket pool false env = .ok sock st1 evs) :
    ((send_message m pool env (.three rid d mds) reply false false true).outcome =
       .error (.documentTooLarge mds m.max_bson_size) ∧
     (send_message m pool env (.three rid d mds) reply false false true).events = evs ∧
     ∀ a dt, NetEvent.send a dt ∉
       (send_message m pool env (.three rid d mds) reply false false true).events) ∧
    (∀ mds2, mds2 ≤ m.max_bson_size →
       check_bson_size m.max_bson_size (.three rid d mds2) = .ok (rid, d)) ∧
    check_bson_size m.max_bson_size (.two rid d) = .ok (rid, d) := by
  have hmain : send_message m pool env (.three rid d mds) reply false false true =
      { outcome := .error (.documentTooLarge mds m.max_bson_size)
        events := evs, pool := maybe_return_socket st1 sock, disconnected := false } := by
    unfold send_message
    simp only [hp, Bool.not_true, Bool.and_false, Bool.false_eq_true, if_false]
    rw [hget]
    unfold check_bson_size
    simp [hover]
  have hns := get_socket_no_send pool false env
  rw [hget] at hns
  simp only [noSendEvents] at hns
  refine ⟨⟨by rw [hmain], by rw [hmain], ?_⟩, ?_, ?_⟩
  · rw [hmain]
    intro a dt
    exact hns a dt
  · intro mds2 h2
    unfold check_bson_size
    have : ¬ (mds2 > m.max_bson_size) := by omega
    simp [this]
  · rfl

/-- C7 witness: the amended theorem applied to a 101-byte max_doc_size against
    a 100-byte limit with an empty pool. -/
theorem c7_witness :
    memPrim.is_primary = true ∧ memPrim.max_bson_size < 101 ∧
    ((send_message memPrim pool0 env0 (.three 1 7 101) gle0 false false true).outcome =
       .error (.documentTooLarge 101 memPrim.max_bson_size) ∧
     (send_message memPrim pool0 env0 (.three 1 7 101) gle0 false false true).events =
       [NetEvent.connect ("localhost", 27017)] ∧
     ∀ a dt, NetEvent.send a dt ∉
       (send_message memPrim pool0 env0 (.three 1 7 101) gle0 false false true).events) ∧
    (∀ mds2, mds2 ≤ memPrim.max_bson_size →
       check_bson_size memPrim.max_bson_size (.three 1 7 mds2) = .ok (1, 7)) ∧
    check_bson_size memPrim.max_bson_size (.two 1 7) = .ok (1, 7) :=
  ⟨rfl, by decide,
   (c7_oversized_document memPrim pool0 env0 gle0 1 7 101 0
      (match get_socket pool0 false env0 with
       | .ok _ st _ => st
       | .err _ st _ => st)
      [NetEvent.connect ("localhost", 27017)] rfl (by decide) rfl).1,
   (c7_oversized_document memPrim pool0 env0 gle0 1 7 101 0
      (match get_socket pool0 false env0 with
       | .ok _ st _ => st
       | .err _ st _ => st)
      [NetEvent.connect ("localhost", 27017)] rfl (by decide) rfl).2.1,
   (c7_oversized_document memPrim pool0 env0 gle0 1 7 101 0
      (match get_socket pool0 false env0 with
       | .ok _ st _ => st
       | .err _ st _ => st)
      [NetEvent.connect ("localhost", 27017)] rfl (by decide) rfl).2.2⟩

/-- A deployment where every probe fails with a network error. -/
def netFail : Addr → HandshakeResult := fun _ => .failure (.socketError "unreachable")

/-- A connected client: one seed, previously discovered nodes, cached member. -/
def clientGood : ClientState :=
  { seeds := [("a", 1)]
    nodes := [("a", 1), ("b", 2)]
    member := some memPrim
    direct := false
    repl := none }

/-- C8: the resolution path never clears the nodes set on failure and
    disconnect only drops the member: after disconnect() the member is None
    and the nodes set is intact; the next ensure_member reruns __find_node on
    exactly `nodes or seeds`; if that resolution fails, the nodes set is
    still the one from the last successful resolution and the member stays
    None, while on success the member is the one __find_node returns. -/
theorem c8_nodes_preserved_on_failure (c : ClientState) (net : Addr → HandshakeResult)
    (fuel latency choice : Nat) :
    (disconnect c).member = none ∧
    (disconnect c).nodes = c.nodes ∧
    (∀ e, find_node c.direct c.repl net fuel latency choice c.nodes
            (if c.nodes.isEmpty then c.seeds else c.nodes) = .error e →
       (ensure_member (disconnect c) net fuel latency choice).2.nodes = c.nodes ∧
       (ensure_member (disconnect c) net fuel latency choice).2.member = none ∧
       (ensure_member (disconnect c) net fuel latency choice).1 = .error e) ∧
    (ensure_member (disconnect c) net fuel latency choice).1 =
      (find_node c.direct c.repl net fuel latency choice c.nodes
         (if c.nodes.isEmpty then c.seeds else c.nodes)).map Prod.fst := by
  refine ⟨rfl, rfl, ?_, ?_⟩
  · intro e he
    unfold ensure_member disconnect
    simp only
    rw [he]
    exact ⟨rfl, rfl, rfl⟩
  · unfold ensure_member disconnect
    simp only
    cases hf : find_node c.direct c.repl net fuel latency choice c.nodes
        (if c.nodes.isEmpty then c.seeds else c.nodes) with
    | ok p =>
        cases p with
        | mk m ns => simp [Except.map]
    | error e => simp [Except.map]

/-- C8 witness: the theorem applied to a connected client whose next
    resolution fails entirely; the preserved nodes drive the retry. -/
theorem c8_witness :
    (disconnect clientGood).member = none ∧
    (disconnect clientGood).nodes = clientGood.nodes ∧
    (ensure_member (disconnect clientGood) netFail 1 10 0).2.nodes = clientGood.nodes ∧
    (ensure_member (disconnect clientGood) netFail 1 10 0).2.member = none :=
  ⟨(c8_nodes_preserved_on_failure clientGood netFail 1 10 0).1,
   (c8_nodes_preserved_on_failure clientGood netFail 1 10 0).2.1,
   ((c8_nodes_preserved_on_failure clientGood netFail 1 10 0).2.2.1
      (.autoReconnect "unreachable, unreachable") (by decide)).1,
   ((c8_nodes_preserved_on_failure clientGood netFail 1 10 0).2.2.1
      (.autoReconnect "unreachable, unreachable") (by decide)).2.1⟩

/-! C4. The claim: for a closed socket (pid unchanged), forced means drop the
    flag and release nothing, otherwise exactly one permit is released. The
    source has a third case the claim misses: a closed, unforced socket that
    IS the caller's request socket releases nothing either (the permit stays
    with the request binding until end_request). -/

/-- The pool after start_request; get_socket (binding socket 0 to the
    request); an I/O error closing socket 0. -/
def stC4 : PoolState :=
  runOps [.opStartRequest, .opGetSocket false env0, .opCloseSock 0] pool0

/-- C4 counterexample: socket 0 is closed, unforced, and is the request
    socket; maybe_return_socket releases no permit (the semaphore stays at 1),
    contradicting the claim's "otherwise exactly one semaphore permit is
    released". The socket is (as the claim says) not added to the idle set. -/
theorem c4_counterexample :
    (stC4.attrs 0).closed = true ∧
    (stC4.attrs 0).forced = false ∧
    pyEq (.socketInfo 0) stC4.reqState = true ∧
    stC4.semaphore = 1 ∧
    (maybe_return_socket stC4 0).semaphore = 1 ∧
    (maybe_return_socket stC4 0).idle = [] := by
  decide

/-- C4 (amended): returning a closed socket (pid unchanged) never touches the
    idle set; a forced one just drops its forced flag and releases no permit;
    an unforced one releases exactly one permit unless it is the caller's
    request socket, in which case nothing is released. -/
theorem c4_return_closed_socket (st : PoolState) (s : Nat)
    (hc : (st.attrs s).closed = true) :
    (maybe_return_socket st s).idle = st.idle ∧
    ((st.attrs s).forced = true →
       ((maybe_return_socket st s).attrs s).forced = false ∧
       (maybe_return_socket st s).semaphore = st.semaphore) ∧
    ((st.attrs s).forced = false → pyEq (.socketInfo s) st.reqState = false →
       (maybe_return_socket st s).semaphore = st.semaphore + 1 ∧
       (maybe_return_socket st s).attrs = st.attrs) ∧
    ((st.attrs s).forced = false → pyEq (.socketInfo s) st.reqState = true →
       maybe_return_socket st s = st) := by
  unfold maybe_return_socket
  rw [if_pos hc]
  refine ⟨?_, ?_, ?_, ?_⟩
  · split_ifs <;> simp [setForcedAttr]
  · intro hf
    rw [if_pos hf]
    exact ⟨by simp [setForcedAttr, Function.update], rfl⟩
  · intro hf hr
    rw [if_neg (by rw [hf]; intro h; exact Bool.noConfusion h)]
    rw [if_pos (by rw [hr]; rfl)]
    exact ⟨rfl, rfl⟩
  · intro hf hr
    rw [if_neg (by rw [hf]; intro h; exact Bool.noConfusion h)]
    rw [if_neg (by rw [hr]; intro h; exact Bool.noConfusion h)]

/-- C4 witness: the amended theorem applied to the closed request socket. -/
theorem c4_witness :
    (stC4.attrs 0).closed = true ∧
    ((stC4.attrs 0).forced = false → pyEq (.socketInfo 0) stC4.reqState = true →
       maybe_return_socket stC4 0 = stC4) :=
  ⟨by decide, (c4_return_closed_socket stC4 0 (by decide)).2.2.2⟩

/-- The pool right after one plain get_socket: socket 0 checked out, open,
    no request in progress. -/
def stOpen : PoolState := runOps [.opGetSocket false env0] pool0

/-- C10: SocketInfo equality delegates to the wrapped raw socket — two
    SocketInfos are equal exactly when their sock attributes are equal; any
    value without a sock attribute (in particular NO_REQUEST and
    NO_SOCKET_YET) compares unequal to every SocketInfo from either side; and
    maybe_return_socket decides "is this the caller's request socket" with
    exactly this equality. -/
theorem c10_socketinfo_equality :
    (∀ s t, pyEq (.socketInfo s) (.socketInfo t) = (s == t)) ∧
    (∀ v : PValue, hasSockAttr v = false →
       ∀ s, pyEq (.socketInfo s) v = false ∧ pyEq v (.socketInfo s) = false) ∧
    hasSockAttr .noRequest = false ∧
    hasSockAttr .noSocketYet = false ∧
    (∀ (st : PoolState) (s : Nat), (st.attrs s).closed = false →
       maybe_return_socket st s =
         if pyEq (.socketInfo s) st.reqState then st else _return_socket st s) := by
  refine ⟨?_, ?_, rfl, rfl, ?_⟩
  · intro s t
    simp [pyEq, socketInfoEq, hasSockAttr, sockAttrOf]
  · intro v hv s
    cases v with
    | noRequest => exact ⟨rfl, rfl⟩
    | noSocketYet => exact ⟨rfl, rfl⟩
    | socketInfo t => exact Bool.noConfusion hv
  · intro st s hc
    unfold maybe_return_socket
    rw [if_neg (by rw [hc]; intro h; exact Bool.noConfusion h)]
    by_cases hp : pyEq (.socketInfo s) st.reqState
    · rw [if_pos hp, if_neg (by rw [hp]; intro h; exact Bool.noConfusion h)]
    · rw [if_neg hp, if_pos (by simp [Bool.not_eq_true] at hp; rw [hp]; rfl)]

/-- C10 witness: the parts with hypotheses applied at concrete values: the
    sentinels against SocketInfo 0, and the request-socket decision on an
    open checked-out socket. -/
theorem c10_witness :
    (pyEq (.socketInfo 0) .noRequest = false ∧ pyEq .noRequest (.socketInfo 0) = false) ∧
    ((stOpen.attrs 0).closed = false ∧
     maybe_return_socket stOpen 0 =
       if pyEq (.socketInfo 0) stOpen.reqState then stOpen else _return_socket stOpen 0) :=
  ⟨c10_socketinfo_equality.2.1 .noRequest rfl 0,
   ⟨by decide, c10_socketinfo_equality.2.2.2.2 stOpen 0 (by decide)⟩⟩

/-! C9: request balancing. -/

theorem start_request_first (st : PoolState) (h : st.reqState = .noRequest) :
    start_request st =
      { st with reqState := .noSocketYet, requestCounter := st.requestCounter + 1 } := by
  unfold start_request
  rw [h]
  rfl

theorem start_request_step (st : PoolState) (h : pyEq st.reqState .noRequest = false) :
    start_request st = { st with requestCounter := st.requestCounter + 1 } := by
  unfold start_request
  rw [if_neg (by rw [h]; intro hh; exact Bool.noConfusion hh)]

theorem end_request_step (st : PoolState) (h0 : st.requestCounter ≠ 0)
    (h1 : st.requestCounter ≠ 1) :
    end_request st = { st with requestCounter := st.requestCounter - 1 } := by
  unfold end_request
  rw [if_pos h0, if_neg h1]

theorem end_request_last (st : PoolState) (h : st.requestCounter = 1)
    (hr : st.reqState = .noSocketYet) :
    end_request st = { st with reqState := .noRequest, requestCounter := 0 } := by
  unfold end_request
  rw [if_pos (by omega), if_pos h]
  have : ({ st with requestCounter := st.requestCounter - 1 } : PoolState).reqState =
      PValue.noSocketYet := hr
  rw [this]
  simp [h]

theorem applyN_start_steps :
    ∀ (n : Nat) (st : PoolState), pyEq st.reqState .noRequest = false →
      applyN start_request n st = { st with requestCounter := st.requestCounter + n } := by
  intro n
  induction n with
  | zero => intro st h; simp [applyN]
  | succ k ih =>
    intro st h
    show applyN start_request k (start_request st) = _
    rw [start_request_step st h]
    rw [ih { st with requestCounter := st.requestCounter + 1 } h]
    have : st.requestCounter + 1 + k = st.requestCounter + (k + 1) := by omega
    rw [this]

theorem applyN_end_steps :
    ∀ (n : Nat) (st : PoolState), n + 1 ≤ st.requestCounter →
      applyN end_request n st = { st with requestCounter := st.requestCounter - n } := by
  intro n
  induction n with
  | zero => intro st h; simp [applyN]
  | succ k ih =>
    intro st h
    show applyN end_request k (end_request st) = _
    rw [end_request_step st (by omega) (by omega)]
    rw [ih _ (by show k + 1 ≤ st.requestCounter - 1; omega)]
    have : st.requestCounter - 1 - k = st.requestCounter - (k + 1) := by omega
    rw [this]

theorem applyN_end_exact :
    ∀ (n : Nat) (st : PoolState), st.requestCounter = n → st.reqState = .noSocketYet →
      1 ≤ n →
      applyN end_request n st = { st with reqState := .noRequest, requestCounter := 0 } := by
  intro n
  induction n with
  | zero => intro st _ _ h1; omega
  | succ k ih =>
    intro st hc hr _
    show applyN end_request k (end_request st) = _
    by_cases hk : k = 0
    · subst hk
      rw [end_request_last st hc hr]
      rfl
    · rw [end_request_step st (by omega) (by omega)]
      exact ih _ (by show st.requestCounter - 1 = k; omega) hr (by omega)

/-- C9: from any pool state whose request bookkeeping is consistent (the
    per-caller counter is zero exactly when no request entry exists — an
    invariant of every reachable state), n start_request calls followed by n
    end_request calls restore the pool state exactly, with no socket checkout
    in between; and any end_request on a zero counter is a complete no-op, so
    the counter never goes below zero. -/
theorem c9_request_balance (st : PoolState) (n : Nat) (hn : 1 ≤ n)
    (hwf : wfState st) :
    applyN end_request n (applyN start_request n st) = st ∧
    (∀ s2 : PoolState, s2.requestCounter = 0 → end_request s2 = s2) := by
  constructor
  · by_cases h0 : st.requestCounter = 0
    · have hr : st.reqState = .noRequest := hwf.mp h0
      obtain ⟨k, rfl⟩ : ∃ k, n = k + 1 := ⟨n - 1, by omega⟩
      have hstart : applyN start_request (k + 1) st =
          { st with reqState := .noSocketYet
                    requestCounter := st.requestCounter + (k + 1) } := by
        show applyN start_request k (start_request st) = _
        rw [start_request_first st hr]
        rw [applyN_start_steps k
              { st with reqState := .noSocketYet
                        requestCounter := st.requestCounter + 1 } rfl]
        have : st.requestCounter + 1 + k = st.requestCounter + (k + 1) := by omega
        rw [this]
      rw [hstart]
      rw [applyN_end_exact (k + 1) _ (by show st.requestCounter + (k + 1) = k + 1; omega)
            rfl (by omega)]
      rw [← hr, ← h0]
    · have hrne : st.reqState ≠ .noRequest := fun hh => h0 (hwf.mpr hh)
      have hpy : pyEq st.reqState .noRequest = false := by
        cases hpv : st.reqState with
        | noRequest => exact absurd hpv hrne
        | noSocketYet => rfl
        | socketInfo s => rfl
      rw [applyN_start_steps n st hpy]
      rw [applyN_end_steps n _ (by show n + 1 ≤ st.requestCounter + n; omega)]
      have : st.requestCounter + n - n = st.requestCounter := by omega
      rw [this]
  · intro s2 h2
    unfold end_request
    rw [if_neg (by simp [h2])]

/-- C9 witness: two balanced start/end pairs on a fresh pool restore it. -/
theorem c9_witness :
    (1 ≤ 2 ∧ wfState pool0) ∧
    applyN end_request 2 (applyN start_request 2 pool0) = pool0 :=
  ⟨⟨by omega, by decide⟩, (c9_request_balance pool0 2 (by omega) (by decide)).1⟩

/-! C2: the idle-socket invariant. The generation half (idle sockets carry
    the current pool_id) holds across every operation; the not-closed half
    fails through end_request, which returns the request socket without
    checking its closed flag. -/

theorem idleGood_closeSockAttr (st : PoolState) (s : Nat) (h : idleGood st) :
    idleGood (closeSockAttr st s) := by
  intro x hx
  show (Function.update st.attrs s { st.attrs s with closed := true } x).pool_id = st.pool_id
  rw [Function.update_apply]
  split
  · next hxs => rw [hxs] at hx; exact h s hx
  · exact h x hx

theorem idleGood_setForced (st : PoolState) (s : Nat) (b : Bool) (h : idleGood st) :
    idleGood (setForcedAttr st s b) := by
  intro x hx
  show (Function.update st.attrs s { st.attrs s with forced := b } x).pool_id = st.pool_id
  rw [Function.update_apply]
  split
  · next hxs => rw [hxs] at hx; exact h s hx
  · exact h x hx

theorem idleGood_connectPool (st : PoolState) (h : idleGood st) :
    idleGood (connectPool st).2 := by
  intro x hx
  show (Function.update st.attrs st.nextSock
    { pool_id := st.pool_id, closed := false, forced := false } x).pool_id = st.pool_id
  rw [Function.update_apply]
  split
  · rfl
  · exact h x hx

theorem idleGood_resetPool (st : PoolState) : idleGood (resetPool st) := by
  intro x hx
  exact absurd hx (List.not_mem_nil x)

theorem idleGood_idleAdd (st : PoolState) (s : Nat) (h : idleGood st)
    (hpid : (st.attrs s).pool_id = st.pool_id) : idleGood (idleAdd st s) := by
  intro x hx
  show (st.attrs x).pool_id = st.pool_id
  by_cases hmem : s ∈ st.idle
  · have hx2 : x ∈ st.idle := by
      have heq : (idleAdd st s).idle = st.idle := by
        unfold idleAdd
        simp [hmem]
      rw [heq] at hx
      exact hx
    exact h x hx2
  · have hx2 : x ∈ s :: st.idle := by
      have heq : (idleAdd st s).idle = s :: st.idle := by
        unfold idleAdd
        simp [hmem]
      rw [heq] at hx
      exact hx
    rcases List.mem_cons.mp hx2 with rfl | hx3
    · exact hpid
    · exact h x hx3

theorem idleGood_return (st : PoolState) (s : Nat) (h : idleGood st) :
    idleGood (_return_socket st s) := by
  unfold _return_socket
  dsimp only
  split
  · next hcond =>
    have hpid : (st.attrs s).pool_id = st.pool_id :=
      eq_of_beq ((Bool.and_eq_true _ _).mp hcond).2
    have hadd : idleGood (idleAdd st s) := idleGood_idleAdd st s h hpid
    split
    · exact idleGood_setForced _ s false hadd
    · exact fun x hx => hadd x hx
  · have hclose : idleGood (closeSockAttr st s) := idleGood_closeSockAttr st s h
    split
    · exact idleGood_setForced _ s false hclose
    · exact fun x hx => hclose x hx

theorem idleGood_maybe_return (st : PoolState) (s : Nat) (h : idleGood st) :
    idleGood (maybe_return_socket st s) := by
  unfold maybe_return_socket
  split_ifs <;>
    first
      | exact idleGood_setForced st s false h
      | exact idleGood_return st s h
      | exact h

/-- The invariant carried through a GetOut. -/
def outIdleGood : GetOut → Prop
  | .ok _ st _ => idleGood st
  | .err _ st _ => idleGood st

theorem outIdleGood_recoverDead (env : GetEnv) (st : PoolState) (h : idleGood st) :
    outIdleGood (recoverDead env st) := by
  unfold recoverDead
  split
  · simp only [outIdleGood]
    exact idleGood_connectPool st h
  · simp only [outIdleGood]
    exact idleGood_resetPool st

theorem outIdleGood_check (env : GetEnv) (st : PoolState) (s : Nat) (h : idleGood st) :
    outIdleGood (_check env st s) := by
  unfold _check
  split_ifs <;>
    first
      | exact outIdleGood_recoverDead env st h
      | exact outIdleGood_recoverDead env _ (idleGood_closeSockAttr st s h)
      | exact h

theorem outIdleGood_pooled (st0 : PoolState) (reqOrig : PValue) (forced : Bool)
    (env : GetEnv) (h : idleGood st0) :
    outIdleGood (get_socket_pooled st0 reqOrig forced env) := by
  unfold get_socket_pooled
  cases hidle : st0.idle with
  | nil =>
    dsimp only
    split
    · simp only [outIdleGood]
      have h2 : idleGood (setForcedAttr (connectPool st0).2 (connectPool st0).1 forced) :=
        idleGood_setForced _ _ _ (idleGood_connectPool st0 h)
      split
      · exact fun x hx => h2 x hx
      · exact h2
    · simp only [outIdleGood]
      split
      · exact h
      · exact fun x hx => absurd hx (List.not_mem_nil x)
  | cons s restIdle =>
    dsimp only
    have hrest : idleGood { st0 with idle := restIdle } := by
      intro x hx
      exact h x (by rw [hidle]; exact List.mem_cons_of_mem s hx)
    cases hc : _check env { st0 with idle := restIdle } s with
    | ok s1 st2 evs =>
        have h2 := outIdleGood_check env { st0 with idle := restIdle } s hrest
        rw [hc] at h2
        simp only [outIdleGood] at h2
        simp only [outIdleGood]
        have h3 : idleGood (setForcedAttr st2 s1 forced) := idleGood_setForced _ _ _ h2
        split
        · exact fun x hx => h3 x hx
        · exact h3
    | err e st2 evs =>
        have h2 := outIdleGood_check env { st0 with idle := restIdle } s hrest
        rw [hc] at h2
        simp only [outIdleGood] at h2
        simp only [outIdleGood]
        split
        · exact h2
        · exact fun x hx => h2 x hx

theorem outIdleGood_get (st : PoolState) (force : Bool) (env : GetEnv)
    (h : idleGood st) : outIdleGood (get_socket st force env) := by
  cases hrq : st.reqState with
  | socketInfo s =>
    unfold get_socket
    rw [hrq]
    dsimp only
    cases hc : _check env st s with
    | ok s1 st1 evs =>
        have h2 := outIdleGood_check env st s h
        rw [hc] at h2
        simp only [outIdleGood] at h2
        simp only [outIdleGood]
        split
        · exact h2
        · exact fun x hx => h2 x hx
    | err e st1 evs =>
        have h2 := outIdleGood_check env st s h
        rw [hc] at h2
        simp only [outIdleGood] at h2
        simpa [outIdleGood] using h2
  | noRequest =>
    unfold get_socket
    rw [hrq]
    dsimp only
    by_cases hforce : force <;> by_cases hsem : st.semaphore > 0 <;>
      simp only [hforce, hsem, if_true, if_false, ite_true, ite_false] <;>
      first
        | exact outIdleGood_pooled _ _ _ env h
        | exact outIdleGood_pooled _ _ _ env (fun x hx => h x hx)
        | simpa [outIdleGood] using h
  | noSocketYet =>
    unfold get_socket
    rw [hrq]
    dsimp only
    by_cases hforce : force <;> by_cases hsem : st.semaphore > 0 <;>
      simp only [hforce, hsem, if_true, if_false, ite_true, ite_false] <;>
      first
        | exact outIdleGood_pooled _ _ _ env h
        | exact outIdleGood_pooled _ _ _ env (fun x hx => h x hx)
        | simpa [outIdleGood] using h

theorem idleGood_applyOp (st : PoolState) (op : PoolOp) (h : idleGood st) :
    idleGood (applyOp st op) := by
  cases op with
  | opGetSocket force env =>
      dsimp only [applyOp]
      have h2 := outIdleGood_get st force env h
      cases hg : get_socket st force env with
      | ok a b c => rw [hg] at h2; simpa [outIdleGood] using h2
      | err a b c => rw [hg] at h2; simpa [outIdleGood] using h2
  | opMaybeReturn s =>
      dsimp only [applyOp]
      split
      · exact idleGood_maybe_return st s h
      · exact h
  | opStartRequest =>
      dsimp only [applyOp]
      unfold start_request
      dsimp only
      split
      · exact fun x hx => h x hx
      · exact fun x hx => h x hx
  | opEndRequest =>
      dsimp only [applyOp]
      unfold end_request
      dsimp only
      split
      · split
        · split
          all_goals
            first
              | exact fun x hx => h x hx
              | (apply idleGood_return
                 exact fun x hx => h x hx)
        · exact fun x hx => h x hx
      · exact h
  | opReset =>
      dsimp only [applyOp]
      exact idleGood_resetPool st
  | opCloseSock s =>
      dsimp only [applyOp]
      split
      · exact h
      · exact idleGood_closeSockAttr st s h
  | opThreadDied =>
      dsimp only [applyOp]
      unfold on_thread_died
      split
      all_goals
        first
          | exact fun x hx => h x hx
          | (apply idleGood_return
             exact fun x hx => h x hx)

/-- C2 (amended): the generation half of the claimed invariant holds — from
    any state whose idle sockets all carry the pool's current pool_id, every
    sequence of single-caller pool operations (get_socket, maybe_return,
    start/end_request, reset, socket closure by I/O error, the thread-death
    hook) preserves that property. The closed half of the claim fails; see
    the counterexample. -/
theorem c2_generation_invariant (ops : List PoolOp) (st : PoolState)
    (h : idleGood st) : idleGood (runOps ops st) := by
  induction ops generalizing st with
  | nil => exact h
  | cons op rest ih => exact ih (applyOp st op) (idleGood_applyOp st op h)

/-- A single caller's history: start a request, check a socket out (it becomes
    the request socket), suffer an I/O error that closes it, return it (a
    no-op: it is the request socket), end the request. -/
def seqC2 : List PoolOp :=
  [.opStartRequest, .opGetSocket false env0, .opCloseSock 0, .opMaybeReturn 0, .opEndRequest]

/-- C2 counterexample: after that history the idle set holds socket 0 whose
    closed flag is set — end_request put the closed request socket back into
    the idle set, violating "every socket in the idle set has closed ==
    False". (Its pool_id is the current one, as the amended claim states.) -/
theorem c2_counterexample :
    (runOps seqC2 pool0).idle = [0] ∧
    ((runOps seqC2 pool0).attrs 0).closed = true ∧
    ((runOps seqC2 pool0).attrs 0).pool_id = (runOps seqC2 pool0).pool_id := by
  decide

/-- C2 witness: the amended invariant applied to the fresh pool and the
    counterexample history. -/
theorem c2_witness : idleGood pool0 ∧ idleGood (runOps seqC2 pool0) :=
  ⟨by decide, c2_generation_invariant seqC2 pool0 (by decide)⟩
